import Mathlib

/-!
Shallow embedding of the KYC verification backend
(`backend/app/main.py`, `backend/app/compliance/{eu_rules,risk_scorer,audit_log}.py`)
and proofs about the spec's claims.

Conventions:
* Python `float` values are modelled as `ℚ` (all constants in the source are
  exact decimals); `round(x, 3)` is modelled by `round3`.
* Python `dict`s with string keys are modelled as association lists
  (`List (String × α)`) preserving insertion order; `dictGet`/`dictSet`
  mirror `d[k]` lookup and assignment semantics.
* Fallible Python code is modelled with `Except`: an unhandled exception in a
  handler is an `ApiErr.py` value, an `HTTPException` is `ApiErr.http`.
* External collaborators (OCR, cv2 image analysis, liveness, face comparison)
  are parameters of the embedded handlers, per the spec's §6 contracts.
-/

/-- Association-list model of a Python `dict` with `String` keys:
`dictGet m k` is `m.get(k)` / `m[k]` lookup (first binding wins; a Python
dict has unique keys, which `dictSet` preserves). -/
def dictGet {α : Type} : List (String × α) → String → Option α
  | [], _ => none
  | (k, v) :: rest, key => if key = k then some v else dictGet rest key

/-- Python `d[k] = v`: replace in place if the key exists, else append
(Python dicts keep insertion order). -/
def dictSet {α : Type} : List (String × α) → String → α → List (String × α)
  | [], key, v => [(key, v)]
  | (k, w) :: rest, key, v =>
      if key = k then (k, v) :: rest else (k, w) :: dictSet rest key v

/-- Model of `d.keys()` of the association-list dict. -/
def dictKeys {α : Type} (m : List (String × α)) : List String :=
  m.map Prod.fst

/-- Extracted document fields: a Python dict `str → str`. -/
abbrev Fields := List (String × String)

/-- Python exceptions that the embedded code can raise. -/
inductive PyErr : Type
  | nameError (name : String)
  | typeError (msg : String)
  | keyError (key : String)
  | valueError (msg : String)
  deriving DecidableEq, Repr

/-- A handler outcome that is not a normal return: an `HTTPException`
raised on purpose, or an unhandled Python exception (HTTP 500). -/
inductive ApiErr : Type
  | http (statusCode : Nat) (detail : String)
  | py (e : PyErr)
  deriving DecidableEq, Repr

/-- Python `round(x, 3)`. Mathlib's `round` rounds halves up while Python
rounds halves to even; no value in the source or the claims sits on a
half-thousandth boundary, so the models agree on everything proved here. -/
def round3 (x : ℚ) : ℚ := (round (x * 1000) : ℤ) / 1000

/-- Python `round(x, 2)` (used for the reported Laplacian variance). -/
def round2 (x : ℚ) : ℚ := (round (x * 100) : ℤ) / 100

/-- Python `a >= b` where `a` may be `None` (`dict.get` result):
`None >= int` raises `TypeError` in Python 3. -/
def pyGeOptInt (a : Option ℤ) (b : ℤ) : Except PyErr Bool :=
  match a with
  | some x => .ok (decide (b ≤ x))
  | none => .error (.typeError "not supported between instances of NoneType and int")

/-! ## Dates

`datetime.strptime(s, "%Y-%m-%d")` and `datetime` arithmetic.  A `datetime`
instant is a `ℚ`: proleptic-Gregorian ordinal days (Python
`date.toordinal`, `0001-01-01 ↦ 1`) plus the time of day as a fraction. -/

def isLeapYear (y : ℕ) : Bool :=
  (y % 4 == 0 && y % 100 != 0) || (y % 400 == 0)

/-- Length of month `m` (1-12) of year `y`. -/
def daysInMonth (y m : ℕ) : ℕ :=
  if m = 2 then (if isLeapYear y then 29 else 28)
  else if m = 4 ∨ m = 6 ∨ m = 9 ∨ m = 11 then 30
  else 31

/-- Days in year `y` strictly before month `m`. -/
def daysBeforeMonth (y m : ℕ) : ℕ :=
  (List.range (m - 1)).foldl (fun acc i => acc + daysInMonth y (i + 1)) 0

/-- Python `date(y, m, d).toordinal()`: day count since 0001-01-00. -/
def dateOrdinal (y m d : ℕ) : ℕ :=
  let py := y - 1
  365 * py + py / 4 - py / 100 + py / 400 + daysBeforeMonth y m + d

/-- Model of `str.split(sep)` on a one-character separator, over the char list
(e.g. `"a-b" ↦ [['a'], ['b']]`; a trailing separator yields a final `[]`). -/
def splitOnChar (sep : Char) : List Char → List (List Char)
  | [] => [[]]
  | c :: rest =>
      if c = sep then [] :: splitOnChar sep rest
      else
        match splitOnChar sep rest with
        | [] => [[c]]
        | g :: gs => (c :: g) :: gs

/-- Decimal value of a digit string. -/
def digitsToNat (cs : List Char) : ℕ :=
  cs.foldl (fun acc c => 10 * acc + (c.toNat - 48)) 0

def isDigits (cs : List Char) : Bool :=
  cs.length > 0 && cs.all Char.isDigit

/-- Model of `datetime.strptime(s, "%Y-%m-%d")`: `%Y` matches 1-4 digits, `%m` and
`%d` 1-2 digits, the whole string must be consumed, and the triple must be a
valid calendar date (year 1-9999).  Returns the date, or `none` where Python
raises `ValueError`. -/
def parseDate (s : String) : Option (ℕ × ℕ × ℕ) :=
  match splitOnChar '-' s.toList with
  | [ys, ms, ds] =>
      if isDigits ys && ys.length ≤ 4 && isDigits ms && ms.length ≤ 2
          && isDigits ds && ds.length ≤ 2 then
        let y := digitsToNat ys
        let m := digitsToNat ms
        let d := digitsToNat ds
        if 1 ≤ y ∧ y ≤ 9999 ∧ 1 ≤ m ∧ m ≤ 12 ∧ 1 ≤ d ∧ d ≤ daysInMonth y m
        then some (y, m, d) else none
      else none
  | _ => none

/-- The `datetime` (midnight) a successful `strptime` returns, as `ℚ` days. -/
def parsedInstant (ymd : ℕ × ℕ × ℕ) : ℚ :=
  (dateOrdinal ymd.1 ymd.2.1 ymd.2.2 : ℚ)

/-- Message `str(e)` of the `ValueError` that `strptime` raises (shape from
CPython; the claims only require that an error marker is present). -/
def strptimeErrMsg (s : String) : String :=
  "time data " ++ s ++ " does not match format %Y-%m-%d"

/-! ## `EUComplianceEngine` (`compliance/eu_rules.py`) -/

/-- Result dict of `check_age_verification`.  The success branch has no
`error` key and the failure branch has no `age_threshold` key; absent keys
are `none`. -/
structure AgeResult : Type where
  age : Option ℤ
  is_adult : Bool
  dsa_compliant : Bool
  age_threshold : Option ℕ
  error : Option String
  deriving DecidableEq, Repr

/-- Embedding of `EUComplianceEngine.check_age_verification(dob_str)` at instant
`now`.  `(now - dob).days` is `⌊now - dob⌋` (timedelta normalisation), and
Python `//` is flooring division (`Int.fdiv`). -/
def check_age_verification (dob_str : String) (now : ℚ) : AgeResult :=
  match parseDate dob_str with
  | some ymd =>
      let age : ℤ := Int.fdiv ⌊now - parsedInstant ymd⌋ 365
      { age := some age
        is_adult := decide (18 ≤ age)
        dsa_compliant := decide (18 ≤ age)
        age_threshold := some 18
        error := none }
  | none =>
      { age := none
        is_adult := false
        dsa_compliant := false
        age_threshold := none
        error := some (strptimeErrMsg dob_str) }

/-- Result dict of `check_document_validity`; absent keys are `none`. -/
structure ValidityResult : Type where
  document_valid : Bool
  expiry_date : Option String
  days_until_expiry : Option ℤ
  aml_compliant : Bool
  error : Option String
  deriving DecidableEq, Repr

/-- Embedding of `EUComplianceEngine.check_document_validity(expiry_date)` at instant
`now`.  The source calls `datetime.now()` twice microseconds apart; both
calls are modelled by the single instant `now`. -/
def check_document_validity (expiry_date : String) (now : ℚ) : ValidityResult :=
  match parseDate expiry_date with
  | some ymd =>
      let is_valid := decide (now < parsedInstant ymd)
      { document_valid := is_valid
        expiry_date := some expiry_date
        days_until_expiry := some ⌊parsedInstant ymd - now⌋
        aml_compliant := is_valid
        error := none }
  | none =>
      { document_valid := false
        expiry_date := none
        days_until_expiry := none
        aml_compliant := false
        error := some (strptimeErrMsg expiry_date) }

/-- The GDPR allow-list (`allowed_fields` in `gdpr_data_minimization`). -/
def allowed_fields : Finset String :=
  {"name", "dob", "document_id", "country", "expiry", "document_type"}

/-- Result dict of `gdpr_data_minimization`.  `extra_fields` is a Python
set difference, modelled as a `Finset` (its `list(...)` order is
unspecified); `minimized_data` is a dict comprehension preserving the
input's insertion order. -/
structure DataMinResult : Type where
  data_minimization_passed : Bool
  extra_fields : Finset String
  minimized_data : Fields
  deriving DecidableEq

/-- Embedding of `EUComplianceEngine.gdpr_data_minimization(extracted_data)`. -/
def gdpr_data_minimization (extracted_data : Fields) : DataMinResult :=
  let extra := (dictKeys extracted_data).toFinset \ allowed_fields
  { data_minimization_passed := decide (extra.card = 0)
    extra_fields := extra
    minimized_data := extracted_data.filter (fun kv => kv.1 ∈ allowed_fields) }

/-- Result dict of `aml_cdd_measures`. -/
structure CddResult : Type where
  cdd_completed : Bool
  collected_fields : Fields
  deriving DecidableEq, Repr

/-- The `required_fields` list of `aml_cdd_measures`. -/
def cdd_required_fields : List String := ["name", "dob", "document_id", "country"]

/-- Embedding of `EUComplianceEngine.aml_cdd_measures(data)`: `data.get(f)` is truthy iff
the key is present with a non-empty string. -/
def aml_cdd_measures (data : Fields) : CddResult :=
  { cdd_completed :=
      cdd_required_fields.all (fun f => ((dictGet data f).getD "") ≠ "")
    collected_fields := data.filter (fun kv => kv.1 ∈ cdd_required_fields) }

/-- Result dict of `detect_tampering`; on the except branch the variance and
compliance keys are absent (`none`). -/
structure TamperingResult : Type where
  tampering_detected : Bool
  tampering_score : ℚ
  laplacian_variance : Option ℚ
  regulation_2023_1113_compliant : Option Bool
  error : Option String
  deriving DecidableEq, Repr

/-- Embedding of `EUComplianceEngine.detect_tampering(image)`.  The cv2 Laplacian
variance of the image is the external input: `some lap` when cv2 succeeds,
`none` when it raises (non-image input), which the `except` branch turns
into the zero-score error dict.  `tampering_detected` uses the unrounded
score; the reported `tampering_score` is rounded to 3 decimals. -/
def detect_tampering (lap : Option ℚ) : TamperingResult :=
  match lap with
  | some lapVar =>
      let score := max 0 (min 1 (1 - lapVar / 1000))
      { tampering_detected := decide ((3 : ℚ)/5 < score)
        tampering_score := round3 score
        laplacian_variance := some (round2 lapVar)
        regulation_2023_1113_compliant := some (decide (score < 3/5))
        error := none }
  | none =>
      { tampering_detected := false
        tampering_score := 0
        laplacian_variance := none
        regulation_2023_1113_compliant := none
        error := some "cv2 error" }

/-! ## `RiskScoringEngine` (`compliance/risk_scorer.py`) -/

/-- Embedding of `RiskScoringEngine.calculate_document_risk`. -/
def calculate_document_risk (tampering_score : ℚ) (document_valid : Bool)
    (age_verified : Bool) (country_risk : ℚ := 0.1) : ℚ :=
  let validity_risk : ℚ := if document_valid then 0 else 1
  let age_risk : ℚ := if age_verified then 0 else 1
  round3 (tampering_score * 0.4 + validity_risk * 0.3
    + age_risk * 0.2 + country_risk * 0.1)

/-- Embedding of `RiskScoringEngine.calculate_biometric_risk` (the `liveness_confidence`
default parameter is unused by the body, exactly as in the source). -/
def calculate_biometric_risk (liveness_passed : Bool) (face_match_score : ℚ)
    (liveness_confidence : ℚ := 0.9) : ℚ :=
  let liveness_risk : ℚ := if liveness_passed then 0 else 0.8
  let face_risk : ℚ := 1 - face_match_score
  round3 (liveness_risk * 0.6 + face_risk * 0.4)

/-- Embedding of `RiskScoringEngine.calculate_behavioral_risk`. -/
def calculate_behavioral_risk (is_first_verification : Bool := true)
    (velocity_check : ℚ := 0) (device_risk : ℚ := 0.1) : ℚ :=
  let first_time_risk : ℚ := if is_first_verification then 0.2 else 0
  round3 (first_time_risk * 0.5 + velocity_check * 0.3 + device_risk * 0.2)

/-- Embedding of `RiskScoringEngine.calculate_overall_risk`. -/
def calculate_overall_risk (document_risk biometric_risk behavioral_risk : ℚ) : ℚ :=
  round3 ((document_risk + biometric_risk + behavioral_risk) / 3)

/-- Embedding of `RiskScoringEngine.make_decision`. -/
def make_decision (overall_risk : ℚ) : String :=
  if overall_risk < 0.30 then "APPROVED"
  else if overall_risk < 0.60 then "REVIEW"
  else "REJECTED"

/-- The `checks` dict of `LivenessEngine.check_liveness`. -/
structure LivenessChecks : Type where
  face_detected : Bool
  blink_detected : Bool
  head_movement : Bool
  texture_analysis : Bool
  deriving DecidableEq, Repr

/-- The per-session `face_result` dict stored by `verify_face`
(`main.py` lines 178-182). -/
structure FaceResult : Type where
  similarity_score : ℚ
  liveness_passed : Bool
  liveness_details : LivenessChecks
  deriving DecidableEq, Repr

/-- The `doc_data` dict assembled by `risk_assessment` (`main.py` 235-240);
`age` may be Python `None` (unparseable dob). -/
structure DocData : Type where
  age : Option ℤ
  document_valid : Bool
  tampering_detected : Bool
  cdd_completed : Bool
  deriving DecidableEq, Repr

/-- The `risk_scores` dict assembled by `risk_assessment`. -/
structure RiskScores : Type where
  document : ℚ
  biometric : ℚ
  behavioral : ℚ
  overall : ℚ
  deriving DecidableEq, Repr

/-- Python `f"{q:.0%}"`, percent with 0 decimals.  CPython breaks exact
half-percent ties to even on the binary float; no value proved about here
sits on such a tie, so plain rounding agrees. -/
def pctStr (q : ℚ) : String := toString (round (q * 100) : ℤ) ++ "%"

/-- Python `str` of an int-or-None. -/
def optIntStr (a : Option ℤ) : String :=
  match a with
  | some x => toString x
  | none => "None"

/-- Embedding of `RiskScoringEngine.generate_reasons`.  Raises `TypeError` (propagated to
the caller) when `document_data["age"]` is `None`, because the source
compares `document_data.get("age", 0) >= 18` and the key is always present
in the dict `risk_assessment` builds. -/
def generate_reasons (decision : String) (document_data : DocData)
    (face_data : FaceResult) (risk_scores : RiskScores) :
    Except PyErr (List String) := do
  let ageGe18 ← pyGeOptInt document_data.age 18
  let r1 :=
    if ageGe18 then
      "Age verification: " ++ optIntStr document_data.age ++ " years (>= 18) passed"
    else
      "Age verification: " ++ optIntStr document_data.age ++ " years (< 18) failed"
  let r2 :=
    if document_data.document_valid then "Document validity: Current and valid"
    else "Document validity: Expired or invalid"
  let r3 :=
    if ¬ document_data.tampering_detected then "Document integrity: No tampering detected"
    else "Document integrity: Tampering suspected"
  let r4 :=
    if face_data.liveness_passed then "Biometric verification: Liveness passed"
    else "Biometric verification: Liveness failed"
  let similarity := face_data.similarity_score
  let r5 :=
    if (17 : ℚ)/20 < similarity then
      "Face match: " ++ pctStr similarity ++ " similarity (good match)"
    else
      "Face match: " ++ pctStr similarity ++ " similarity (poor match)"
  let r6 :=
    if decision = "APPROVED" then
      "Overall risk score: " ++ pctStr risk_scores.overall ++ " (below threshold)"
    else if decision = "REVIEW" then
      "Overall risk score: " ++ pctStr risk_scores.overall ++ " (manual review recommended)"
    else
      "Overall risk score: " ++ pctStr risk_scores.overall ++ " (exceeds threshold)"
  .ok [r1, r2, r3, r4, r5, r6]

/-! ### `build_compliance_report` -/

structure GdprReport : Type where
  data_minimization : String
  encryption : String
  consent : String
  article_22_right_to_human_review : String
  deriving DecidableEq, Repr

structure AmlReport : Type where
  cdd_completed : String
  age_verified : String
  document_valid : String
  deriving DecidableEq, Repr

structure DsaReport : Type where
  age_over_18 : Bool
  digital_services_act : String
  deriving DecidableEq, Repr

structure Reg2023Report : Type where
  tampering_check : String
  liveness_check : String
  deriving DecidableEq, Repr

/-- The dict returned by `build_compliance_report`. -/
structure ComplianceReport : Type where
  timestamp : String
  gdpr : GdprReport
  aml : AmlReport
  dsa : DsaReport
  regulation_2023_1113 : Reg2023Report
  deriving DecidableEq, Repr

/-- Embedding of `EUComplianceEngine.build_compliance_report(doc_data, face_data,
doc_risk, bio_risk)`.  `now_iso` is `datetime.now().isoformat()`.  The two
risk parameters are unused by the body, exactly as in the source.  The
comparisons `doc_data.get("age", 0) >= 18` raise `TypeError` when the stored
age is `None` (the `"age"` key is always present in the caller's dict). -/
def build_compliance_report (doc_data : DocData) (face_data : FaceResult)
    (doc_risk bio_risk : ℚ) (now_iso : String) :
    Except PyErr ComplianceReport := do
  let ageGe18 ← pyGeOptInt doc_data.age 18
  let ageGe18b ← pyGeOptInt doc_data.age 18
  .ok
    { timestamp := now_iso
      gdpr :=
        { data_minimization := "PASS"
          encryption := "AES-256 + TLS 1.3"
          consent := "OBTAINED"
          article_22_right_to_human_review := "AVAILABLE" }
      aml :=
        { cdd_completed := if doc_data.cdd_completed then "PASS" else "FAIL"
          age_verified := if ageGe18 then "PASS" else "FAIL"
          document_valid := if doc_data.document_valid then "PASS" else "FAIL" }
      dsa :=
        { age_over_18 := ageGe18b
          digital_services_act := if ageGe18b then "COMPLIANT" else "NON_COMPLIANT" }
      regulation_2023_1113 :=
        { tampering_check := if ¬ doc_data.tampering_detected then "PASS" else "FAIL"
          liveness_check := if face_data.liveness_passed then "PASS" else "FAIL" } }

/-! ## `AuditLog` (`compliance/audit_log.py`) -/

/-- One audit entry: the caller's payload plus the `"timestamp"` key, which
may or may not be present in the payload the caller passes. -/
structure AuditEntry (α : Type) : Type where
  payload : α
  timestamp : Option String
  deriving DecidableEq, Repr

/-- The `entry = dict(entry); if "timestamp" not in entry: entry["timestamp"]
= datetime.now().isoformat()` step of `AuditLog.add_entry`. -/
def stampEntry {α : Type} (e : AuditEntry α) (now_iso : String) : AuditEntry α :=
  if e.timestamp.isSome then e else { e with timestamp := some now_iso }

/-- Embedding of `AuditLog.add_entry(entry)` at server time `now_iso`: the log state is
the private `_logs` list. -/
def add_entry {α : Type} (logs : List (AuditEntry α)) (e : AuditEntry α)
    (now_iso : String) : List (AuditEntry α) :=
  logs ++ [stampEntry e now_iso]

/-- Embedding of `AuditLog.list_entries()`: returns a copy of `_logs` (reads do not
mutate). -/
def list_entries {α : Type} (logs : List (AuditEntry α)) : List (AuditEntry α) :=
  logs

/-- A whole history of `add_entry` calls (payload plus the server time at
which the call happened), replayed onto a log state. -/
def runAddEntries {α : Type} (logs : List (AuditEntry α))
    (calls : List (AuditEntry α × String)) : List (AuditEntry α) :=
  calls.foldl (fun acc c => add_entry acc c.1 c.2) logs

/-! ## `main.py` handlers

Server state: the module-level `document_store` dict and the global
`audit_log._logs` list.  The audit payloads are the three dict shapes
`main.py` passes to `add_entry` (none of them contains a `"timestamp"`
key, so every entry gets the server stamp). -/

/-- The three audit payload shapes of `main.py` (lines 131, 185, 269). -/
inductive AuditEvent : Type
  | documentExtraction (verification_id : String) (status : String) (country : String)
  | faceVerification (verification_id : String) (status : String)
  | decision (verification_id : String) (decision : String) (risk_score : ℚ)
      (compliance_checks : ComplianceReport) (country : String)
  deriving DecidableEq, Repr

/-- The `compliance` dict stored per session (`main.py` 101-107). -/
structure ComplianceChecks : Type where
  age_verification : AgeResult
  document_valid : Bool
  tampering_detected : Bool
  data_minimization : Bool
  document_risk_score : ℚ
  deriving DecidableEq, Repr

/-- A `document_store[verification_id]` record (`main.py` 113-120, with the
optional `"face_result"` key written by `verify_face` at 178). -/
structure SessionRec : Type where
  extracted_data : Fields
  compliance : ComplianceChecks
  aml : CddResult
  age : Option ℤ
  document_valid : Bool
  tampering_detected : Bool
  face_result : Option FaceResult
  deriving DecidableEq, Repr

/-- Process-wide server state. -/
structure ServerState : Type where
  document_store : List (String × SessionRec)
  audit : List (AuditEntry AuditEvent)
  deriving DecidableEq, Repr

def emptyState : ServerState := { document_store := [], audit := [] }

/-- The `settings.allowed_extensions` list (`config.py`). -/
def allowed_extensions : List String := ["jpg", "jpeg", "png"]

/-- Model of `filename.rsplit(".", 1)[1].lower()`: the part after the last dot. -/
def extOf (filename : String) : String :=
  String.mk (((splitOnChar '.' filename.toList).getLastD []).map Char.toLower)

/-- The response body of `extract-document` (`models.DocumentExtractionResult`;
the raw `extracted_data` dict is returned as built by the handler —
pydantic response validation is transport, outside this model). -/
structure DocumentExtractionResult : Type where
  verification_id : String
  status : String
  extracted_data : Fields
  confidence : ℚ
  compliance : ComplianceChecks
  deriving DecidableEq, Repr

/-- Handler `POST /api/v1/extract-document` (`main.py` 65-138).  External inputs are
parameters: `filename` (`document_image.filename`), `decodeOk` (whether
cv2 decodes the upload), `extracted` (the OCR collaborator's field dict),
`lap` (the cv2 Laplacian variance for tampering, `none` if cv2 raises),
`now` (the `datetime.now()` instant), `vid` (the fresh `uuid4`), and
`now_iso` (the audit timestamp). -/
def extract_document (filename : Option String) (decodeOk : Bool)
    (extracted : Fields) (lap : Option ℚ) (now : ℚ) (vid : String)
    (now_iso : String) (st : ServerState) :
    Except ApiErr (ServerState × DocumentExtractionResult) :=
  let fn0 := filename.getD "document.jpg"
  -- `if "." not in filename: filename += ".jpg"`
  let fn := if '.' ∉ fn0.toList then fn0 ++ ".jpg" else fn0
  if extOf fn ∉ allowed_extensions then
    .error (.http 400 "File type not allowed")
  else if ¬ decodeOk then
    .error (.http 400 "Could not decode image")
  else
    -- `extracted_data["dob"]` / `extracted_data["expiry"]` are `dict[...]`
    -- accesses: a missing key raises `KeyError` out of the handler
    -- (`"dob"` is evaluated first, at line 93).
    match dictGet extracted "dob", dictGet extracted "expiry" with
    | none, _ => .error (.py (.keyError "dob"))
    | some _, none => .error (.py (.keyError "expiry"))
    | some dob, some expiry =>
    let age_check := check_age_verification dob now
    let validity_check := check_document_validity expiry now
    let tampering_check := detect_tampering lap
    let data_min_check := gdpr_data_minimization extracted
    let aml_check := aml_cdd_measures extracted
    let document_risk := tampering_check.tampering_score
    let compliance : ComplianceChecks :=
      { age_verification := age_check
        document_valid := validity_check.document_valid
        tampering_detected := tampering_check.tampering_detected
        data_minimization := data_min_check.data_minimization_passed
        document_risk_score := document_risk }
    -- line 113: the session stores the RAW `extracted_data`, not
    -- `data_min_check["minimized_data"]`.
    let rec0 : SessionRec :=
      { extracted_data := extracted
        compliance := compliance
        aml := aml_check
        age := age_check.age
        document_valid := validity_check.document_valid
        tampering_detected := tampering_check.tampering_detected
        face_result := none }
    let result : DocumentExtractionResult :=
      { verification_id := vid
        status := "SUCCESS"
        extracted_data := extracted
        confidence := 0.95
        compliance := compliance }
    let auditPayload : AuditEntry AuditEvent :=
      { payload := .documentExtraction vid "success" ((dictGet extracted "country").getD "EU")
        timestamp := none }
    .ok
      ({ document_store := dictSet st.document_store vid rec0
         audit := add_entry st.audit auditPayload now_iso }, result)

/-- The response body of `verify-face` (`models.FaceVerificationResult`).
No call ever produces one (see `verify_face`), but the type is the
handler's declared result type. -/
structure FaceVerificationResult : Type where
  verification_id : String
  status : String
  similarity_score : ℚ
  liveness_passed : Bool
  liveness_details : LivenessChecks
  deriving DecidableEq, Repr

/-- The local names `verify_face` has bound when control reaches line 155
(`main.py`): its two parameters and the `filename` assigned at 153-154. -/
def verify_face_locals : List String := ["selfie", "document_id", "filename"]

/-- Handler `POST /api/v1/verify-face` (`main.py` 141-191).  After the
session-existence check, line 155 evaluates
`Image.open(io.BytesIO(selfie_bytes))`; `selfie_bytes` is not among
`verify_face_locals` (it is never assigned anywhere in the handler — the
upload is never read), so the evaluation raises `NameError` and the handler
aborts before the liveness call (158), the `face_result` store write (178)
and the audit append (185).  The state is unchanged on every path. -/
def verify_face (document_id : String) (st : ServerState) :
    Except ApiErr (ServerState × FaceVerificationResult) :=
  if (dictGet st.document_store document_id).isNone then
    .error (.http 400 "Invalid document_id")
  else
    .error (.py (.nameError "selfie_bytes"))

/-- The response body of `risk-assessment` (`models.RiskAssessmentResult`). -/
structure RiskAssessmentResult : Type where
  verification_id : String
  decision : String
  overall_risk_score : ℚ
  document_risk : ℚ
  biometric_risk : ℚ
  behavioral_risk : ℚ
  compliance_report : ComplianceReport
  reasons : List String
  deriving DecidableEq, Repr

/-- The per-session body of the `risk-assessment` handler (`main.py`
207-266): everything between the store lookup and the audit append.
`report_iso` is the `datetime.now().isoformat()` taken inside
`build_compliance_report`. -/
def assess_core (document_id : String) (stored : SessionRec)
    (report_iso : String) : Except ApiErr RiskAssessmentResult :=
  match stored.face_result with
  | none => .error (.http 400 "Face verification not completed")
  | some face_result =>
    let compliance := stored.compliance
    let doc_risk := calculate_document_risk compliance.document_risk_score
      compliance.document_valid compliance.age_verification.is_adult 0.1
    let bio_risk := calculate_biometric_risk face_result.liveness_passed
      face_result.similarity_score
    let behavioral_risk := calculate_behavioral_risk true 0 0.1
    let overall := calculate_overall_risk doc_risk bio_risk behavioral_risk
    let decision := make_decision overall
    let doc_data : DocData :=
      { age := compliance.age_verification.age
        document_valid := compliance.document_valid
        tampering_detected := compliance.tampering_detected
        cdd_completed := stored.aml.cdd_completed }
    match build_compliance_report doc_data face_result doc_risk bio_risk report_iso with
    | .error e => .error (.py e)
    | .ok compliance_report =>
      let risk_scores : RiskScores :=
        { document := doc_risk
          biometric := bio_risk
          behavioral := behavioral_risk
          overall := overall }
      match generate_reasons decision doc_data face_result risk_scores with
      | .error e => .error (.py e)
      | .ok reasons =>
        .ok
          { verification_id := document_id
            decision := decision
            overall_risk_score := overall
            document_risk := doc_risk
            biometric_risk := bio_risk
            behavioral_risk := behavioral_risk
            compliance_report := compliance_report
            reasons := reasons }

/-- Handler `POST /api/v1/risk-assessment` (`main.py` 194-277).  `audit_iso` is the
audit timestamp.  Note: the handler has no check on whether a decision was
already computed for the session, and it never writes anything back into
`document_store` — only the audit log grows. -/
def risk_assessment (document_id : String) (report_iso audit_iso : String)
    (st : ServerState) :
    Except ApiErr (ServerState × RiskAssessmentResult) :=
  match dictGet st.document_store document_id with
  | none => .error (.http 400 "Invalid document_id")
  | some stored =>
    match assess_core document_id stored report_iso with
    | .error e => .error e
    | .ok result =>
      let auditPayload : AuditEntry AuditEvent :=
        { payload := .decision document_id result.decision result.overall_risk_score
            result.compliance_report
            ((dictGet stored.extracted_data "country").getD "EU")
          timestamp := none }
      .ok ({ st with audit := add_entry st.audit auditPayload audit_iso }, result)

/-! ## Helper projections and concrete states used by the claim theorems -/

/-- Boolean success test for a handler outcome. -/
def exceptOk {ε α : Type} : Except ε α → Bool
  | .ok _ => true
  | .error _ => false

/-- The server state after a handler call: the returned state on success;
an aborted handler (exception) leaves the global state as it was. -/
def stateAfter {β : Type} (r : Except ApiErr (ServerState × β))
    (st : ServerState) : ServerState :=
  match r with
  | .ok (st2, _) => st2
  | .error _ => st

/-- The raw `extracted_data` persisted for `vid` by a document-submission
outcome (`none` if the call failed or stored nothing under `vid`). -/
def storedFieldsAfter (r : Except ApiErr (ServerState × DocumentExtractionResult))
    (vid : String) : Option Fields :=
  match r with
  | .ok (st2, _) => (dictGet st2.document_store vid).map SessionRec.extracted_data
  | .error _ => none

/-- The decision a `risk-assessment` outcome returned, if it succeeded. -/
def decisionOf (r : Except ApiErr (ServerState × RiskAssessmentResult)) :
    Option String :=
  match r with
  | .ok (_, res) => some res.decision
  | .error _ => none

/-- The `(overall, document, biometric, behavioral)` scores a
`risk-assessment` outcome returned, if it succeeded. -/
def scoresOf (r : Except ApiErr (ServerState × RiskAssessmentResult)) :
    Option (ℚ × ℚ × ℚ × ℚ) :=
  match r with
  | .ok (_, res) => some (res.overall_risk_score, res.document_risk,
      res.biometric_risk, res.behavioral_risk)
  | .error _ => none

/-- The compliance report a `risk-assessment` outcome returned. -/
def reportOf (r : Except ApiErr (ServerState × RiskAssessmentResult)) :
    Option ComplianceReport :=
  match r with
  | .ok (_, res) => some res.compliance_report
  | .error _ => none

/-- All four liveness sub-checks passing. -/
def allLive : LivenessChecks :=
  { face_detected := true, blink_detected := true
    head_movement := true, texture_analysis := true }

/-- A concrete adult age-check result (dob `1990-01-15` seen from 2024). -/
def sampleAge : AgeResult :=
  { age := some 34, is_adult := true, dsa_compliant := true
    age_threshold := some 18, error := none }

/-- A concrete all-green per-session compliance record. -/
def sampleCompliance : ComplianceChecks :=
  { age_verification := sampleAge
    document_valid := true
    tampering_detected := false
    data_minimization := true
    document_risk_score := 0.1 }

/-- The OCR stub's six standard fields (`vision/ocr.py`). -/
def sampleFields : Fields :=
  [("name", "John Doe"), ("dob", "1990-01-15"), ("document_id", "AB1234567"),
   ("country", "DE"), ("expiry", "2030-12-31"), ("document_type", "Passport")]

def sampleAml : CddResult :=
  { cdd_completed := true
    collected_fields := sampleFields.filter (fun kv => kv.1 ∈ cdd_required_fields) }

/-- A concrete session record, parametrised by its biometric outcome. -/
def sampleSession (fr : Option FaceResult) : SessionRec :=
  { extracted_data := sampleFields
    compliance := sampleCompliance
    aml := sampleAml
    age := some 34
    document_valid := true
    tampering_detected := false
    face_result := fr }

/-- A concrete successful biometric result. -/
def faceOk : FaceResult :=
  { similarity_score := 0.9, liveness_passed := true, liveness_details := allLive }

/-- State holding one document-stage session (no biometric result yet). -/
def stDoc : ServerState :=
  { document_store := [("v1", sampleSession none)], audit := [] }

/-- State holding one session whose biometric stage is complete. -/
def stBio : ServerState :=
  { document_store := [("v1", sampleSession (some faceOk))], audit := [] }

/-! ## Claim theorems -/

/-- C2: for every overall risk score `r`, `make_decision` returns
`APPROVED` when `r < 0.30`, `REVIEW` when `0.30 ≤ r < 0.60`, `REJECTED`
when `r ≥ 0.60`; the boundary values `0.30` and `0.60` map to the upper
bucket (`REVIEW` and `REJECTED` respectively). -/
theorem C2_make_decision_buckets (r : ℚ) :
    (r < 0.30 → make_decision r = "APPROVED") ∧
    (0.30 ≤ r → r < 0.60 → make_decision r = "REVIEW") ∧
    (0.60 ≤ r → make_decision r = "REJECTED") ∧
    make_decision 0.30 = "REVIEW" ∧ make_decision 0.60 = "REJECTED" := by
  unfold make_decision
  refine ⟨fun h => by rw [if_pos h], fun h1 h2 => ?_, fun h => ?_,
    by norm_num, by norm_num⟩
  · rw [if_neg (by linarith), if_pos h2]
  · rw [if_neg (by linarith), if_neg (by linarith)]

/-- Witness for C2 at concrete scores 0.1, 0.45 and 0.9. -/
theorem C2_make_decision_buckets_witness :
    make_decision 0.1 = "APPROVED" ∧ make_decision 0.45 = "REVIEW" ∧
    make_decision 0.9 = "REJECTED" :=
  ⟨(C2_make_decision_buckets 0.1).1 (by norm_num),
   (C2_make_decision_buckets 0.45).2.1 (by norm_num) (by norm_num),
   (C2_make_decision_buckets 0.9).2.2.1 (by norm_num)⟩

/-- C7: for inputs in `[0,1]`, `calculate_document_risk` is
`0.4·t + 0.3·(0 if valid else 1) + 0.2·(0 if ageVerified else 1) + 0.1·c`
rounded to 3 decimals, `calculate_biometric_risk` is
`0.6·(0 if livenessPassed else 0.8) + 0.4·(1 − f)` rounded to 3 decimals,
and in particular `calculate_document_risk 0.1 true true 0.1 = 0.05` and
`calculate_biometric_risk true 0.9 = 0.04`. -/
theorem C7_risk_formulas (t c f : ℚ) (v a l : Bool)
    (ht : 0 ≤ t ∧ t ≤ 1) (hc : 0 ≤ c ∧ c ≤ 1) (hf : 0 ≤ f ∧ f ≤ 1) :
    calculate_document_risk t v a c =
      round3 (0.4 * t + 0.3 * (if v then 0 else 1)
        + 0.2 * (if a then 0 else 1) + 0.1 * c) ∧
    calculate_biometric_risk l f =
      round3 (0.6 * (if l then 0 else 0.8) + 0.4 * (1 - f)) ∧
    calculate_document_risk 0.1 true true 0.1 = 0.05 ∧
    calculate_biometric_risk true 0.9 = 0.04 := by
  refine ⟨?_, ?_, by norm_num [calculate_document_risk, round3, round_eq],
    by norm_num [calculate_biometric_risk, round3, round_eq]⟩
  · simp only [calculate_document_risk]
    congr 1
    ring
  · simp only [calculate_biometric_risk]
    congr 1
    ring

/-- Witness for C7 at the claim's own example inputs. -/
theorem C7_risk_formulas_witness :
    calculate_document_risk 0.1 true true 0.1 = 0.05 ∧
    calculate_biometric_risk true 0.9 = 0.04 :=
  ⟨(C7_risk_formulas 0.1 0.1 0.9 true true true
      (by norm_num) (by norm_num) (by norm_num)).2.2.1,
   (C7_risk_formulas 0.1 0.1 0.9 true true true
      (by norm_num) (by norm_num) (by norm_num)).2.2.2⟩

/-- C10: on every unparseable date string, `check_age_verification` and
`check_document_validity` return a result carrying an explicit `error`
marker with `is_adult = false` (resp. `document_valid = false`); being
total Lean functions into plain result records, they never propagate an
exception. -/
theorem C10_unparseable_dates_contained (s : String) (nowA nowV : ℚ)
    (h : parseDate s = none) :
    (check_age_verification s nowA).error.isSome = true ∧
    (check_age_verification s nowA).is_adult = false ∧
    (check_document_validity s nowV).error.isSome = true ∧
    (check_document_validity s nowV).document_valid = false := by
  simp [check_age_verification, check_document_validity, h]

/-- Witness for C10 at the malformed date string `"not-a-date"`. -/
theorem C10_unparseable_dates_contained_witness :
    (check_age_verification "not-a-date" 739000).error.isSome = true ∧
    (check_age_verification "not-a-date" 739000).is_adult = false ∧
    (check_document_validity "not-a-date" 739000).error.isSome = true ∧
    (check_document_validity "not-a-date" 739000).document_valid = false :=
  C10_unparseable_dates_contained "not-a-date" 739000 739000 (by decide)

/-- Every key of `minimized_data` is allow-listed. -/
lemma minimized_keys_allowed (fields : Fields) :
    ∀ kv ∈ (gdpr_data_minimization fields).minimized_data, kv.1 ∈ allowed_fields := by
  intro kv hkv
  simp only [gdpr_data_minimization, List.mem_filter, decide_eq_true_eq] at hkv
  exact hkv.2

/-- C8: `gdpr_data_minimization` is idempotent: applied to its own
`minimized_data`, it reports no extra fields, passes, and returns the same
`minimized_data`. -/
theorem C8_minimization_idempotent (fields : Fields) :
    (gdpr_data_minimization (gdpr_data_minimization fields).minimized_data).extra_fields
      = ∅ ∧
    (gdpr_data_minimization (gdpr_data_minimization fields).minimized_data).data_minimization_passed
      = true ∧
    (gdpr_data_minimization (gdpr_data_minimization fields).minimized_data).minimized_data
      = (gdpr_data_minimization fields).minimized_data := by
  have hextra :
      (dictKeys (gdpr_data_minimization fields).minimized_data).toFinset \ allowed_fields
        = ∅ := by
    rw [Finset.sdiff_eq_empty_iff_subset]
    intro x hx
    rw [List.mem_toFinset] at hx
    simp only [dictKeys, List.mem_map] at hx
    obtain ⟨kv, hkv, rfl⟩ := hx
    exact minimized_keys_allowed fields kv hkv
  refine ⟨?_, ?_, ?_⟩
  · simpa [gdpr_data_minimization] using hextra
  · simp only [gdpr_data_minimization] at hextra ⊢
    simp [hextra]
  · simp only [gdpr_data_minimization]
    rw [List.filter_filter]
    simp

/-- A stamped entry always carries a timestamp. -/
lemma stampEntry_timestamp_isSome {α : Type} (e : AuditEntry α) (ts : String) :
    (stampEntry e ts).timestamp.isSome = true := by
  by_cases h : e.timestamp.isSome <;> simp [stampEntry, h]

/-- Replaying a call history appends exactly the stamped entries, in call
order, after whatever the log already held. -/
lemma runAddEntries_eq_append {α : Type} (logs : List (AuditEntry α))
    (calls : List (AuditEntry α × String)) :
    runAddEntries logs calls = logs ++ calls.map (fun c => stampEntry c.1 c.2) := by
  induction calls generalizing logs with
  | nil => simp [runAddEntries]
  | cons c cs ih =>
      simp only [runAddEntries, List.foldl_cons, List.map_cons] at *
      rw [ih (add_entry logs c.1 c.2)]
      simp [add_entry]

/-- C9: the audit log is append-only: each `add_entry` extends the previous
snapshot by exactly its (timestamped) entry at the end, never shrinking or
mutating prior entries; after any sequence of `add_entry` calls from the
empty log, `list_entries` returns exactly the entries added, in insertion
order, and every returned entry carries a timestamp. -/
theorem C9_audit_append_only (α : Type) (logs : List (AuditEntry α))
    (e : AuditEntry α) (ts : String) (calls : List (AuditEntry α × String)) :
    list_entries (add_entry logs e ts) = list_entries logs ++ [stampEntry e ts] ∧
    (add_entry logs e ts).length = logs.length + 1 ∧
    list_entries (runAddEntries [] calls)
      = calls.map (fun c => stampEntry c.1 c.2) ∧
    (list_entries (runAddEntries [] calls)).all
      (fun en => en.timestamp.isSome) = true := by
  refine ⟨rfl, by simp [add_entry], ?_, ?_⟩
  · simp [list_entries, runAddEntries_eq_append]
  · rw [list_entries, runAddEntries_eq_append]
    simp only [List.nil_append, List.all_eq_true, List.mem_map]
    rintro en ⟨c, _, rfl⟩
    exact stampEntry_timestamp_isSome c.1 c.2

/-- C1: every `verify_face` call that passes the session-existence check
fails with the unhandled `NameError` on `selfie_bytes` (which is not among
the handler's bound locals); consequently no call ever returns a
`FaceVerificationResult` — so no call ever reaches the `face_result` store
write or the `face_verification` audit append, which sit after the failing
line, and the biometric stage can never complete through this endpoint. -/
theorem C1_verify_face_name_error (document_id : String) (st : ServerState)
    (h : (dictGet st.document_store document_id).isSome = true) :
    verify_face document_id st = .error (.py (.nameError "selfie_bytes")) ∧
    "selfie_bytes" ∉ verify_face_locals ∧
    ∀ (st2 : ServerState) (r : FaceVerificationResult),
      verify_face document_id st ≠ .ok (st2, r) := by
  have hnone : (dictGet st.document_store document_id).isNone = false := by
    cases hd : dictGet st.document_store document_id <;> simp_all
  refine ⟨by simp [verify_face, hnone], by decide, fun st2 r hc => ?_⟩
  rw [verify_face, hnone] at hc
  simp at hc

/-- Witness for C1 on a concrete one-session store. -/
theorem C1_verify_face_name_error_witness :
    verify_face "v1" stDoc = .error (.py (.nameError "selfie_bytes")) :=
  (C1_verify_face_name_error "v1" stDoc (by simp [stDoc, dictGet])).1

/-- Counterexample to C5: on a fresh id (no `submitDocument` ever ran, so
the id is absent from `document_store`), the biometric endpoint fails with
`HTTP 400 "Invalid document_id"` — the very same error value every endpoint
returns for an unknown session id (the spec's `NotFound`), not a distinct
`InvalidTransition`-style error such as the stage-precondition error
`"Face verification not completed"` used by `risk_assessment`. -/
theorem C5_counterexample_fresh_id_not_found :
    verify_face "fresh-id" emptyState = .error (.http 400 "Invalid document_id") ∧
    risk_assessment "fresh-id" "r" "a" emptyState
      = .error (.http 400 "Invalid document_id") ∧
    ApiErr.http 400 "Invalid document_id" ≠ ApiErr.http 400 "Face verification not completed" := by
  refine ⟨by simp [verify_face, emptyState, dictGet], ?_, by simp⟩
  simp [risk_assessment, emptyState, dictGet]

/-- C5 as amended: calling the biometric endpoint on a fresh id fails with
the unknown-session error `HTTP 400 "Invalid document_id"` (`NotFound`);
sessions are created only by document submission, so a fresh id is
indistinguishable from an unknown one and no separate `InvalidTransition`
error exists for this case. -/
theorem C5_fresh_id_error (id : String) (st : ServerState)
    (h : dictGet st.document_store id = none) :
    verify_face id st = .error (.http 400 "Invalid document_id") := by
  simp [verify_face, h]

/-- Witness for the amended C5 on the empty store. -/
theorem C5_fresh_id_error_witness :
    verify_face "fresh-id" emptyState = .error (.http 400 "Invalid document_id") :=
  C5_fresh_id_error "fresh-id" emptyState (by simp [emptyState, dictGet])

/-- Looking up a key just assigned returns the assigned value. -/
lemma dictGet_dictSet_self {α : Type} (m : List (String × α)) (k : String) (v : α) :
    dictGet (dictSet m k v) k = some v := by
  induction m with
  | nil => simp [dictSet, dictGet]
  | cons kv rest ih =>
      obtain ⟨k1, w⟩ := kv
      by_cases h : k = k1 <;> simp [dictSet, dictGet, h, ih]

/-- An OCR output carrying one key outside the allow-list (e.g. an analyzer
that also reports the raw text). -/
def c3_extracted : Fields := sampleFields ++ [("extra_notes", "raw OCR text")]

/-- A concrete document submission of `c3_extracted`. -/
def c3_run : Except ApiErr (ServerState × DocumentExtractionResult) :=
  extract_document (some "doc.jpg") true c3_extracted (some 900) 739000 "v1" "t0" emptyState

/-- Counterexample to C3: after this document submission, the session's
persisted fields are the raw analyzer output, which contains the key
`extra_notes` outside the allow-list — not the minimized mapping (which
differs from what was stored). -/
theorem C3_counterexample_raw_stored :
    storedFieldsAfter c3_run "v1" = some c3_extracted ∧
    "extra_notes" ∈ dictKeys c3_extracted ∧
    "extra_notes" ∉ allowed_fields ∧
    (gdpr_data_minimization c3_extracted).minimized_data ≠ c3_extracted := by
  refine ⟨?_, by decide, by decide, by decide⟩
  simp [c3_run, extract_document, extOf, splitOnChar, allowed_extensions, dictGet,
    c3_extracted, sampleFields, emptyState, storedFieldsAfter, dictSet]

/-- C3 as amended: every successful document submission persists the RAW
extracted mapping into the session (`main.py` 113-114), not the minimized
mapping; the data-minimization check only contributes the boolean
`compliance["data_minimization"]`.  Stored `documentFields` may therefore
contain keys outside the allow-list. -/
theorem C3_raw_fields_persisted (filename : Option String) (decodeOk : Bool)
    (extracted : Fields) (lap : Option ℚ) (now : ℚ) (vid ts : String)
    (st : ServerState)
    (h : exceptOk (extract_document filename decodeOk extracted lap now vid ts st)
      = true) :
    storedFieldsAfter (extract_document filename decodeOk extracted lap now vid ts st)
      vid = some extracted := by
  rw [extract_document] at h ⊢
  rcases hdob : dictGet extracted "dob" with _ | dob <;>
    rcases hexp : dictGet extracted "expiry" with _ | expiry <;>
      split_ifs at h ⊢ <;>
        (try simp only [hdob, hexp] at h ⊢) <;>
          first
            | (simp only [exceptOk] at h; exact Bool.noConfusion h)
            | simp [storedFieldsAfter, dictGet_dictSet_self]

/-- Witness for the amended C3 at the concrete submission `c3_run`. -/
theorem C3_raw_fields_persisted_witness :
    storedFieldsAfter c3_run "v1" = some c3_extracted :=
  C3_raw_fields_persisted (some "doc.jpg") true c3_extracted (some 900) 739000
    "v1" "t0" emptyState (by decide)

/-- Lemma: `assess_core` succeeds or fails independently of the report timestamp,
and on success the decision and all four scores are timestamp-independent
(only the report's `timestamp` field differs). -/
lemma assess_core_report_iso (id : String) (stored : SessionRec) (r c : String) :
    exceptOk (assess_core id stored c) = exceptOk (assess_core id stored r) ∧
    ∀ res1 res2, assess_core id stored r = .ok res1 →
      assess_core id stored c = .ok res2 →
      res2.decision = res1.decision ∧
      res2.overall_risk_score = res1.overall_risk_score ∧
      res2.document_risk = res1.document_risk ∧
      res2.biometric_risk = res1.biometric_risk ∧
      res2.behavioral_risk = res1.behavioral_risk := by
  rcases hface : stored.face_result with _ | face
  · simp [assess_core, hface, exceptOk]
  · rcases hge : pyGeOptInt stored.compliance.age_verification.age 18 with e | b
    · simp [assess_core, hface, build_compliance_report, hge, Bind.bind,
        Except.bind, exceptOk]
    · simp only [assess_core, hface, build_compliance_report, generate_reasons,
        hge, Bind.bind, Except.bind, exceptOk]
      refine ⟨trivial, fun res1 res2 h1 h2 => ?_⟩
      simp only [Except.ok.injEq] at h1 h2
      subst h1
      subst h2
      simp

/-- Counterexample input to C4: the state after one completed risk
assessment on `stBio`. -/
def c4_first : Except ApiErr (ServerState × RiskAssessmentResult) :=
  risk_assessment "v1" "r1" "a1" stBio

def c4_st1 : ServerState := stateAfter c4_first stBio

def c4_second : Except ApiErr (ServerState × RiskAssessmentResult) :=
  risk_assessment "v1" "r2" "a2" c4_st1

/-- Counterexample to C4: after a completed risk assessment (state
`c4_st1`), the repeated call on the same session id is NOT rejected — it
succeeds again, recomputing the same decision; nothing in `document_store`
was written by either call (no decision is stored at all). -/
theorem C4_counterexample_repeat_not_rejected :
    exceptOk c4_first = true ∧
    exceptOk c4_second = true ∧
    decisionOf c4_second = decisionOf c4_first ∧
    decisionOf c4_first = some "APPROVED" ∧
    c4_st1.document_store = stBio.document_store := by
  norm_num [c4_first, c4_second, c4_st1, risk_assessment, assess_core, stBio,
    sampleSession, sampleCompliance, sampleAge, sampleAml, faceOk, allLive,
    dictGet, stateAfter, decisionOf, exceptOk, add_entry, stampEntry,
    build_compliance_report, generate_reasons, pyGeOptInt, Bind.bind, Except.bind,
    calculate_document_risk, calculate_biometric_risk, calculate_behavioral_risk,
    calculate_overall_risk, make_decision, round3, round_eq]

/-- C4 as amended: a repeated `risk_assessment` call on a session whose
first call succeeded is not rejected: the handler never writes to
`document_store` (so there is no stored decision to mutate), and the second
call succeeds and recomputes the same decision and the same four risk
scores from the unchanged session record (only the report timestamp can
differ). -/
theorem C4_risk_assessment_recomputes (id r a c d : String) (st : ServerState)
    (h : exceptOk (risk_assessment id r a st) = true) :
    (stateAfter (risk_assessment id r a st) st).document_store
      = st.document_store ∧
    exceptOk (risk_assessment id c d (stateAfter (risk_assessment id r a st) st))
      = true ∧
    decisionOf (risk_assessment id c d (stateAfter (risk_assessment id r a st) st))
      = decisionOf (risk_assessment id r a st) ∧
    scoresOf (risk_assessment id c d (stateAfter (risk_assessment id r a st) st))
      = scoresOf (risk_assessment id r a st) := by
  rcases hlook : dictGet st.document_store id with _ | stored
  · simp [risk_assessment, hlook, exceptOk] at h
  · rcases hcore : assess_core id stored r with e | res1
    · simp [risk_assessment, hlook, hcore, exceptOk] at h
    · obtain ⟨hok, hforall⟩ := assess_core_report_iso id stored r c
      rcases hcore2 : assess_core id stored c with e2 | res2
      · rw [hcore2, hcore] at hok
        simp [exceptOk] at hok
      · have heq := hforall res1 res2 hcore hcore2
        simp [risk_assessment, hlook, hcore, hcore2, stateAfter, decisionOf,
          scoresOf, exceptOk, heq.1, heq.2.1, heq.2.2.1, heq.2.2.2.1, heq.2.2.2.2]

/-- Witness for the amended C4 on the concrete completed session `stBio`. -/
theorem C4_risk_assessment_recomputes_witness :
    (stateAfter (risk_assessment "v1" "r1" "a1" stBio) stBio).document_store
      = stBio.document_store ∧
    exceptOk (risk_assessment "v1" "r2" "a2"
      (stateAfter (risk_assessment "v1" "r1" "a1" stBio) stBio)) = true ∧
    decisionOf (risk_assessment "v1" "r2" "a2"
        (stateAfter (risk_assessment "v1" "r1" "a1" stBio) stBio))
      = decisionOf (risk_assessment "v1" "r1" "a1" stBio) ∧
    scoresOf (risk_assessment "v1" "r2" "a2"
        (stateAfter (risk_assessment "v1" "r1" "a1" stBio) stBio))
      = scoresOf (risk_assessment "v1" "r1" "a1" stBio) :=
  C4_risk_assessment_recomputes "v1" "r1" "a1" "r2" "a2" stBio (by decide)

/-- A session whose document-stage data-minimization check FAILED
(`compliance["data_minimization"] = False`) and whose biometric stage is
complete. -/
def c6_session : SessionRec :=
  { sampleSession (some faceOk) with
      compliance := { sampleCompliance with data_minimization := false } }

def c6_st : ServerState := { document_store := [("v1", c6_session)], audit := [] }

def c6_run : Except ApiErr (ServerState × RiskAssessmentResult) :=
  risk_assessment "v1" "r" "a" c6_st

/-- Counterexample to C6: on a session whose stored data-minimization check
failed, the compliance report still labels `gdpr.data_minimization` as
`"PASS"` — the label is the hard-coded constant of
`build_compliance_report` (`eu_rules.py` line 197), not a re-labeling of
the check's boolean (which `build_compliance_report` is not even given). -/
theorem C6_counterexample_minimization_label_constant :
    c6_session.compliance.data_minimization = false ∧
    (reportOf c6_run).map (fun rep => rep.gdpr.data_minimization)
      = some "PASS" := by
  refine ⟨rfl, ?_⟩
  norm_num [c6_run, c6_st, c6_session, risk_assessment, assess_core,
    sampleSession, sampleCompliance, sampleAge, sampleAml, faceOk, allLive,
    dictGet, reportOf, add_entry, stampEntry,
    build_compliance_report, generate_reasons, pyGeOptInt, Bind.bind, Except.bind,
    calculate_document_risk, calculate_biometric_risk, calculate_behavioral_risk,
    calculate_overall_risk, make_decision, round3, round_eq]

/-- C6 as amended: in `build_compliance_report`, the `aml`, `dsa` and
`regulation_2023_1113` labels are pure re-labelings of the corresponding
booleans (`cdd_completed`, `age ≥ 18`, `document_valid`,
`tampering_detected`, `liveness_passed`); the whole `gdpr` section,
including `data_minimization`, is a fixed constant independent of every
check outcome — in particular `gdpr.data_minimization` is always
`"PASS"`. -/
theorem C6_report_labels (doc_data : DocData) (face_data : FaceResult)
    (doc_risk bio_risk : ℚ) (iso : String) (a : ℤ)
    (ha : doc_data.age = some a) :
    build_compliance_report doc_data face_data doc_risk bio_risk iso =
      .ok
        { timestamp := iso
          gdpr :=
            { data_minimization := "PASS"
              encryption := "AES-256 + TLS 1.3"
              consent := "OBTAINED"
              article_22_right_to_human_review := "AVAILABLE" }
          aml :=
            { cdd_completed := if doc_data.cdd_completed then "PASS" else "FAIL"
              age_verified := if 18 ≤ a then "PASS" else "FAIL"
              document_valid := if doc_data.document_valid then "PASS" else "FAIL" }
          dsa :=
            { age_over_18 := decide (18 ≤ a)
              digital_services_act :=
                if 18 ≤ a then "COMPLIANT" else "NON_COMPLIANT" }
          regulation_2023_1113 :=
            { tampering_check :=
                if ¬ doc_data.tampering_detected then "PASS" else "FAIL"
              liveness_check :=
                if face_data.liveness_passed then "PASS" else "FAIL" } } := by
  simp only [build_compliance_report, pyGeOptInt, ha, Bind.bind, Except.bind,
    Except.ok.injEq]
  by_cases hga : 18 ≤ a <;> simp [hga]

/-- Witness for the amended C6 at a concrete adult document summary. -/
theorem C6_report_labels_witness :
    build_compliance_report (DocData.mk (some 34) true false true) faceOk
        0.05 0.04 "r" =
      .ok
        { timestamp := "r"
          gdpr :=
            { data_minimization := "PASS"
              encryption := "AES-256 + TLS 1.3"
              consent := "OBTAINED"
              article_22_right_to_human_review := "AVAILABLE" }
          aml :=
            { cdd_completed := if (DocData.mk (some 34) true false true).cdd_completed then "PASS" else "FAIL"
              age_verified := if (18 : ℤ) ≤ 34 then "PASS" else "FAIL"
              document_valid := if (DocData.mk (some 34) true false true).document_valid then "PASS" else "FAIL" }
          dsa :=
            { age_over_18 := decide ((18 : ℤ) ≤ 34)
              digital_services_act :=
                if (18 : ℤ) ≤ 34 then "COMPLIANT" else "NON_COMPLIANT" }
          regulation_2023_1113 :=
            { tampering_check :=
                if ¬ (DocData.mk (some 34) true false true).tampering_detected then "PASS" else "FAIL"
              liveness_check :=
                if faceOk.liveness_passed then "PASS" else "FAIL" } } :=
  C6_report_labels (DocData.mk (some 34) true false true) faceOk 0.05 0.04 "r" 34 rfl
